import Mathlib

/-!
Verification of `update_db.py`, a crawler that maintains a JSON database of
nodeinfo documents published by mesh-network nodes.  Each Python function that
the claims touch is embedded below as an executable Lean definition; external
effects (the HTTP library, `json.loads`, the filesystem, the per-request
subprocess) are modelled by explicit parameters or small state types.

The file is organised as definitions first (the embedding of `update_db.py`),
then the theorems settling the specification claims.
-/

/-! ## JSON Repair (`fix_json`, lines 21-28)

The Python code applies two regular-expression substitutions:

* `_trailing_comma_re = ,+(?P<delim>\s*[}\]])`, replaced by the `delim` group;
* `_missing_colon_re  = "\s+(?P<char>[a-zA-Z0-9"])`, replaced by `":` + `char`.

Each substitution is embedded as a left-to-right scanner producing exactly the
leftmost, non-overlapping, greedy matches of Python `re.sub`: the character
classes of the patterns are pairwise disjoint, so greedy matching with no
backtracking is exact.  The scanners use fuel bounded by the input length;
every step consumes at least one character, so the fuel never runs out. -/

/-- Python `\s` on `str` patterns: the code points CPython's `re` treats as
whitespace in Unicode mode (`Py_UNICODE_ISSPACE`): the ASCII whitespace
`\t\n\v\f\r` and space, the information separators U+001C-U+001F, next line
U+0085, no-break space U+00A0, ogham space U+1680, the U+2000-U+200A spaces,
the line and paragraph separators U+2028/U+2029, U+202F, U+205F and the
ideographic space U+3000. -/
def isPySpace (c : Char) : Bool :=
  (0x09 ≤ c.toNat && c.toNat ≤ 0x0d) ||
  (0x1c ≤ c.toNat && c.toNat ≤ 0x1f) ||
  c.toNat = 0x20 || c.toNat = 0x85 || c.toNat = 0xa0 || c.toNat = 0x1680 ||
  (0x2000 ≤ c.toNat && c.toNat ≤ 0x200a) ||
  c.toNat = 0x2028 || c.toNat = 0x2029 || c.toNat = 0x202f ||
  c.toNat = 0x205f || c.toNat = 0x3000

/-- The character class `[}\]]` of `_trailing_comma_re`. -/
def isCloser (c : Char) : Bool :=
  c = '\x7d' || c = ']'

/-- The character class `[a-zA-Z0-9"]` of `_missing_colon_re`. -/
def isValueStart (c : Char) : Bool :=
  c.isAlpha || c.isDigit || c = '"'

/-- Attempt to complete a match of `_trailing_comma_re` whose first comma has
just been read, `rest` being the remaining input: skip further commas, then
whitespace, and require a closer.  Returns the skipped whitespace, the closer
and the input after the match. -/
def tcTail (rest : List Char) : Option (List Char × Char × List Char) :=
  match (rest.dropWhile (fun x => x = ',')).dropWhile isPySpace with
  | d :: rest2 =>
    if isCloser d then
      some ((rest.dropWhile (fun x => x = ',')).takeWhile isPySpace, d, rest2)
    else none
  | [] => none

/-- Attempt to complete a match of `_missing_colon_re` whose quote has just
been read: require at least one whitespace character and then a value-start
character.  Returns that character and the input after the match. -/
def mcTail (rest : List Char) : Option (Char × List Char) :=
  if (rest.takeWhile isPySpace).isEmpty then none
  else
    match rest.dropWhile isPySpace with
    | d :: rest2 => if isValueStart d then some (d, rest2) else none
    | [] => none

/-- One pass of `_trailing_comma_re.sub`: at each position, a run of one or
more commas followed by optional whitespace and a closer is replaced by the
whitespace and the closer; scanning resumes after the match. -/
def subTCAux : Nat → List Char → List Char
  | 0, l => l
  | _ + 1, [] => []
  | fuel + 1, c :: rest =>
    if c = ',' then
      match tcTail rest with
      | some (ws, d, rest2) => ws ++ d :: subTCAux fuel rest2
      | none => c :: subTCAux fuel rest
    else c :: subTCAux fuel rest

/-- One pass of `_missing_colon_re.sub`: at each position, a double quote
followed by one or more whitespace characters and a value-start character is
replaced by `":` and that character; scanning resumes after the match. -/
def subMCAux : Nat → List Char → List Char
  | 0, l => l
  | _ + 1, [] => []
  | fuel + 1, c :: rest =>
    if c = '"' then
      match mcTail rest with
      | some (d, rest2) => '"' :: ':' :: d :: subMCAux fuel rest2
      | none => c :: subMCAux fuel rest
    else c :: subMCAux fuel rest

/-- The substitution with the trailing-comma pattern, on strings. -/
def subTrailingComma (s : String) : String :=
  String.mk (subTCAux s.data.length s.data)

/-- The substitution with the missing-colon pattern, on strings. -/
def subMissingColon (s : String) : String :=
  String.mk (subMCAux s.data.length s.data)

/-- Embedding of `fix_json` (lines 23-28): the trailing-comma substitution
followed by the missing-colon substitution. -/
def fix_json (s : String) : String :=
  subMissingColon (subTrailingComma s)

/-- The list contains a match of `_trailing_comma_re` (`,+\s*[}\]]`). -/
def hasTCMatch : List Char → Bool
  | [] => false
  | c :: rest => (c = ',' && (tcTail rest).isSome) || hasTCMatch rest

/-- The list contains a match of `_missing_colon_re` (`"\s+[a-zA-Z0-9"]`). -/
def hasMCMatch : List Char → Bool
  | [] => false
  | c :: rest => (c = '"' && (mcTail rest).isSome) || hasMCMatch rest

/-! ## JSON values and HTTP responses

`Json.null` plays the role of both the JSON value `null` and the Python value
`None`: `json.loads` maps the document `null` to Python `None`, and the code
under study uses `None` as its absence marker, so the two coincide at every
interface the claims mention. -/

/-- Parsed JSON values as produced by `json.loads`. -/
inductive Json where
  | null
  | bool (b : Bool)
  | num (n : Int)
  | str (s : String)
  | arr (elems : List Json)
  | obj (fields : List (String × Json))

/-- The part of a `requests` response read by `get_nodeinfo`: the `ok` flag,
the `Content-Type` header (`none` when the header is absent, in which case the
Python dictionary lookup `response.headers['Content-Type']` raises `KeyError`)
and the body text. -/
structure Response where
  ok : Bool
  contentType : Option String
  body : String

/-- Exceptions that can escape `get_nodeinfo` (they are not caught there and
would propagate out of the worker and abort `pool.map`). -/
inductive ProbeErr where
  | keyError

/-! ## Sandboxed fetch (`_request_worker` lines 41-55, `request` lines 57-73)

The worker subprocess is modelled by the event describing how its single
`requests.get` call ends.  `memoryExceeded` covers an allocation beyond the
`RLIMIT_DATA` ceiling: the resulting `MemoryError` is not caught, so the
worker dies without putting anything on the queue.  `hung` covers a worker
still running when the parent's `join(REQUEST_TIMEOUT)` deadline passes; the
parent then terminates it. -/

/-- Outcome of the isolated `requests.get` execution. -/
inductive FetchEvent where
  | success (r : Response)
  | connectionError
  | valueError
  | timeoutError
  | memoryExceeded
  | hung

/-- The event is one of the failure modes (everything except `success`). -/
def isFailureEvent : FetchEvent → Bool
  | .success _ => false
  | _ => true

/-- Embedding of `_request_worker` (lines 41-55): what the worker leaves on
the queue.  Only the successful path reaches `queue.put(response)`; the three
`except` clauses `return` without putting, and an uncaught `MemoryError` or a
hung request likewise leave the queue empty. -/
def request_worker : FetchEvent → Option Response
  | .success r => some r
  | _ => none

/-- Embedding of `request` (lines 57-73): if the worker is still alive after
the join deadline it is terminated and the result is `none`; otherwise the
result is `none` when the queue is empty and the queued response otherwise. -/
def request (ev : FetchEvent) : Option Response :=
  match ev with
  | .hung => none
  | ev =>
    match request_worker ev with
    | some r => some r
    | none => none

/-! ## Node Prober (`get_nodeinfo` lines 75-91, `get_nodeinfo_worker` 93-103)

`loads` stands for the Python standard-library `json.loads`, returning `none`
where Python raises `ValueError` (the only exception class the code catches).
`response` is the value returned by `request` for the node's URL. -/

/-- The markup media types that are rejected without a parse attempt
(line 82). -/
def markupTypes : List String :=
  ["text/html", "application/xhtml+xml", "application/xml"]

/-- Character test used to truncate a header value at the first `;`. -/
def notSemicolon (c : Char) : Bool := c ≠ ';'

/-- The `split(';')[0]` of line 81: the header value up to the first `;`. -/
def mediaType (headerValue : String) : String :=
  String.mk (headerValue.data.takeWhile notSemicolon)

/-- Embedding of `get_nodeinfo` (lines 75-91).  `Json.null` is returned where
Python returns `None`; the missing-header case raises `KeyError`, modelled by
`Except.error`.  Taking characters up to the first `;` is `split(';')[0]`. -/
def get_nodeinfo (loads : String → Option Json) (response : Option Response) :
    Except ProbeErr Json :=
  match response with
  | none => .ok .null
  | some r =>
    if !r.ok then .ok .null
    else
      match r.contentType with
      | none => .error .keyError
      | some headerValue =>
        if mediaType headerValue ∈ markupTypes then .ok .null
        else
          match loads (fix_json r.body) with
          | some v => .ok v
          | none => .ok .null

/-- Embedding of `get_nodeinfo_worker` (lines 93-103): both branches of the
`if` return `(node, nodeinfo)` (the branches differ only in the progress
message printed), so the worker pairs the node with whatever `get_nodeinfo`
produced.  `fetched` is the fetch result for the node's URL. -/
def get_nodeinfo_worker (loads : String → Option Json) (fetched : Option Response)
    (node : String) : Except ProbeErr (String × Json) :=
  match get_nodeinfo loads fetched with
  | .ok nodeinfo => .ok (node, nodeinfo)
  | .error e => .error e

/-! ## Crawl Orchestrator (`main` lines 119-124)

`pool.map(predicate, nodes)` applies the worker to every node and returns the
results in input order once all workers have joined, whatever order the
individual probes complete in.  `probe` abstracts the per-node outcome
(`get_nodeinfo`'s value for that node); the worker pairs it with the node. -/

/-- The outcome list collected by `pool.map` over the node list. -/
def crawl (probe : String → Json) (nodes : List String) : List (String × Json) :=
  nodes.map (fun node => (node, probe node))

/-! ## Database Merger (`main` lines 126-131) -/

/-- One database record: `{'last_crawl': time.time(), 'nodeinfo': nodeinfo}`
(lines 127-130). -/
structure CrawlRecord where
  last_crawl : Nat
  nodeinfo : Json

/-- The merge loop of `main` (lines 126-130), folding the results into the
database.  `clock k` is the value of `time.time()` at the `k`-th loop
iteration (the code reads the clock once per record). -/
def mergeAux (clock : Nat → Nat) :
    Nat → (String → Option CrawlRecord) → List (String × Json) →
    (String → Option CrawlRecord)
  | _, db, [] => db
  | i, db, (node, info) :: rest =>
    mergeAux clock (i + 1) (Function.update db node (some ⟨clock i, info⟩)) rest

/-- The whole merge step: overlay every crawl result onto the prior
database. -/
def merge (clock : Nat → Nat) (db : String → Option CrawlRecord)
    (results : List (String × Json)) : String → Option CrawlRecord :=
  mergeAux clock 0 db results

/-! ## Persistence (`write_db` lines 105-110)

The database file is modelled by `Option String`: `none` when the file does
not exist, `some content` otherwise.  `write_db` first unlinks an existing
file, then opens it in append mode (creating an empty file), then runs
`json.dump`; the dump either writes the serialized text or raises after
writing a prefix of it. -/

/-- How the `json.dump` call ends: it writes `s` completely, or it raises
after writing only `written` (possibly empty, e.g. when serialization itself
fails or the disk is full). -/
inductive DumpResult where
  | ok (s : String)
  | failed (written : String)

/-- Embedding of `write_db` (lines 105-110): the file contents after the
call.  `afterUnlink` is the state after `os.unlink` (line 108), `opened`
after `open(filename, 'a')` (line 109). -/
def write_db (fs : Option String) (dump : DumpResult) : Option String :=
  let afterUnlink : Option String := if fs.isSome then none else fs
  let opened : String := afterUnlink.getD ""
  match dump with
  | .ok s => some (opened ++ s)
  | .failed written => some (opened ++ written)

/-! ## Helper lemmas -/

/-- On a list with no match of the trailing-comma pattern, the first
substitution is the identity. -/
theorem subTCAux_eq_of_no_match :
    ∀ (fuel : Nat) (l : List Char), hasTCMatch l = false → subTCAux fuel l = l := by
  intro fuel
  induction fuel with
  | zero => intro l _; rfl
  | succ n ih =>
    intro l h
    cases l with
    | nil => rfl
    | cons c rest =>
      rw [hasTCMatch, Bool.or_eq_false_iff] at h
      obtain ⟨h1, h2⟩ := h
      rw [subTCAux]
      by_cases hc : c = ','
      · have hnone : tcTail rest = none := by
          rw [Bool.and_eq_false_iff] at h1
          rcases h1 with h1 | h1
          · simp [hc] at h1
          · exact Option.not_isSome_iff_eq_none.mp (by simp [h1])
        rw [if_pos hc, hnone, ih rest h2]
      · rw [if_neg hc, ih rest h2]

/-- On a list with no match of the missing-colon pattern, the second
substitution is the identity. -/
theorem subMCAux_eq_of_no_match :
    ∀ (fuel : Nat) (l : List Char), hasMCMatch l = false → subMCAux fuel l = l := by
  intro fuel
  induction fuel with
  | zero => intro l _; rfl
  | succ n ih =>
    intro l h
    cases l with
    | nil => rfl
    | cons c rest =>
      rw [hasMCMatch, Bool.or_eq_false_iff] at h
      obtain ⟨h1, h2⟩ := h
      rw [subMCAux]
      by_cases hc : c = '"'
      · have hnone : mcTail rest = none := by
          rw [Bool.and_eq_false_iff] at h1
          rcases h1 with h1 | h1
          · simp [hc] at h1
          · exact Option.not_isSome_iff_eq_none.mp (by simp [h1])
        rw [if_pos hc, hnone, ih rest h2]
      · rw [if_neg hc, ih rest h2]

/-- On a string with neither pattern, `fix_json` is the identity. -/
theorem fix_json_eq_of_pattern_free (s : String)
    (h1 : hasTCMatch s.data = false) (h2 : hasMCMatch s.data = false) :
    fix_json s = s := by
  have htc : subTrailingComma s = s := by
    rw [subTrailingComma, subTCAux_eq_of_no_match _ _ h1]
  rw [fix_json, htc, subMissingColon, subMCAux_eq_of_no_match _ _ h2]

/-- A key not named by any result keeps its prior record through the merge
loop. -/
theorem mergeAux_eq_of_not_mem (clock : Nat → Nat) :
    ∀ (results : List (String × Json)) (i : Nat)
      (db : String → Option CrawlRecord) (n : String),
      n ∉ results.map Prod.fst → mergeAux clock i db results n = db n := by
  intro results
  induction results with
  | nil => intro i db n _; rfl
  | cons p rest ih =>
    intro i db n hn
    obtain ⟨node, info⟩ := p
    simp only [List.map_cons, List.mem_cons, not_or] at hn
    rw [mergeAux, ih _ _ _ hn.2, Function.update_noteq hn.1]

/-- When the result keys are distinct, the `j`-th result's node receives the
record built at iteration `i + j` of the merge loop. -/
theorem mergeAux_get (clock : Nat → Nat) :
    ∀ (results : List (String × Json)) (i : Nat)
      (db : String → Option CrawlRecord),
      (results.map Prod.fst).Nodup →
      ∀ (j : Nat) (hj : j < results.length),
        mergeAux clock i db results (results.get ⟨j, hj⟩).1 =
          some ⟨clock (i + j), (results.get ⟨j, hj⟩).2⟩ := by
  intro results
  induction results with
  | nil => intro i db _ j hj; exact absurd hj (by simp)
  | cons p rest ih =>
    intro i db hnd j hj
    obtain ⟨node, info⟩ := p
    simp only [List.map_cons, List.nodup_cons] at hnd
    cases j with
    | zero =>
      rw [mergeAux]
      show mergeAux clock (i + 1)
        (Function.update db node (some ⟨clock i, info⟩)) rest node = _
      rw [mergeAux_eq_of_not_mem clock rest _ _ node hnd.1,
        Function.update_same]
      simp
    | succ k =>
      rw [mergeAux]
      have h := ih (i + 1) (Function.update db node (some ⟨clock i, info⟩))
        hnd.2 k (Nat.lt_of_succ_lt_succ hj)
      have hik : i + 1 + k = i + (k + 1) := by omega
      rw [hik] at h
      simpa using h

/-! ## Theorems for the claims -/

/-- Claim C1, evaluated at its failing input: with a prior database file on
disk and a `json.dump` that fails before writing anything, `write_db` leaves
an empty file — the prior contents are destroyed although the new state was
never written, because the code unlinks the old file before writing rather
than writing the new state and then replacing. -/
theorem write_db_failed_dump_destroys_prior :
    write_db (some "\x7b\"old\": true\x7d") (.failed "") = some "" ∧
    (some "" : Option String) ≠ some "\x7b\"old\": true\x7d" := by
  exact ⟨rfl, by decide⟩

/-- Claim C2: every failure mode of the sandboxed fetch — connection failure,
transport-layer protocol or parse failure (`ValueError`), timeout exception,
memory-ceiling violation killing the worker, or forcible termination of a
worker that missed the join deadline — makes `request` return `none` rather
than raise an exception, and a successful fetch returns the raw response. -/
theorem request_none_on_failure_response_on_success :
    (∀ ev : FetchEvent, isFailureEvent ev = true → request ev = none) ∧
    (∀ r : Response, request (.success r) = some r) := by
  constructor
  · intro ev h
    cases ev <;> simp_all [request, request_worker, isFailureEvent]
  · intro r
    rfl

/-- Witness for C2 at concrete inputs. -/
theorem request_none_on_failure_response_on_success_witness :
    request .connectionError = none ∧
    request (.success ⟨true, some "application/json", "null"⟩) =
      some ⟨true, some "application/json", "null"⟩ :=
  ⟨request_none_on_failure_response_on_success.1 .connectionError rfl,
   request_none_on_failure_response_on_success.2 _⟩

/-- Claim C3 fails on the code: a successful (`ok`) response that lacks a
`Content-Type` header makes `get_nodeinfo` raise `KeyError` at the dictionary
lookup `response.headers['Content-Type']` (line 81), so `get_nodeinfo` is not
total, and the exception propagates out of the pool worker and aborts the
run. -/
theorem get_nodeinfo_keyerror_on_missing_content_type :
    get_nodeinfo (fun _ => none) (some ⟨true, none, ""⟩) = .error .keyError := rfl

/-- Claim C4: over any duplicate-free node list, the orchestrator collects
exactly one outcome per node — as many outcomes as nodes, first components
exactly the nodes, and each node counted exactly once among the outcomes. -/
theorem crawl_exactly_one_outcome_per_node (probe : String → Json)
    (nodes : List String) (hnd : nodes.Nodup) :
    (crawl probe nodes).length = nodes.length ∧
    (crawl probe nodes).map Prod.fst = nodes ∧
    ∀ n ∈ nodes, ((crawl probe nodes).map Prod.fst).count n = 1 := by
  have hfst : (crawl probe nodes).map Prod.fst = nodes := by
    simp [crawl, Function.comp_def]
  refine ⟨by simp [crawl], hfst, ?_⟩
  intro n hn
  rw [hfst]
  exact List.count_eq_one_of_mem hnd hn

/-- Witness for C4 at a concrete node list. -/
theorem crawl_exactly_one_outcome_per_node_witness :
    (["a", "b"] : List String).Nodup ∧
    (crawl (fun _ => Json.null) ["a", "b"]).map Prod.fst = ["a", "b"] :=
  ⟨by decide, (crawl_exactly_one_outcome_per_node _ _ (by decide)).2.1⟩

/-- Claim C5: the merge overwrites exactly the probed nodes — the `j`-th
result `(node, info)` leaves `node` with the record
`{last_crawl := clock j, nodeinfo := info}` built at its loop iteration, and
every key not named by any result keeps exactly its prior record. -/
theorem merge_overwrites_probed_keeps_rest (clock : Nat → Nat)
    (db : String → Option CrawlRecord) (results : List (String × Json))
    (hnd : (results.map Prod.fst).Nodup) :
    (∀ n, n ∉ results.map Prod.fst → merge clock db results n = db n) ∧
    (∀ (j : Nat) (hj : j < results.length),
      merge clock db results (results.get ⟨j, hj⟩).1 =
        some ⟨clock j, (results.get ⟨j, hj⟩).2⟩) := by
  constructor
  · intro n hn
    exact mergeAux_eq_of_not_mem clock results 0 db n hn
  · intro j hj
    have h := mergeAux_get clock results 0 db hnd j hj
    simpa using h

/-- Witness for C5: a two-result merge updates the probed nodes and keeps an
unrelated prior record unchanged. -/
theorem merge_overwrites_probed_keeps_rest_witness :
    (([("a", Json.null), ("b", Json.bool true)].map Prod.fst).Nodup) ∧
    merge (fun k => k) (fun n => if n = "keep" then some ⟨5, Json.null⟩ else none)
      [("a", Json.null), ("b", Json.bool true)] "keep" = some ⟨5, Json.null⟩ ∧
    merge (fun k => k) (fun n => if n = "keep" then some ⟨5, Json.null⟩ else none)
      [("a", Json.null), ("b", Json.bool true)] "b" = some ⟨1, Json.bool true⟩ := by
  refine ⟨by decide, ?_, ?_⟩
  · refine (merge_overwrites_probed_keeps_rest _ _ _ (by decide)).1 "keep" (by decide)
  · have h := (merge_overwrites_probed_keeps_rest (fun k => k)
      (fun n => if n = "keep" then some ⟨5, Json.null⟩ else none)
      [("a", Json.null), ("b", Json.bool true)] (by decide)).2 1 (by decide)
    exact h

/-- Claim C6 as stated is false: `fix_json` is not idempotent.  On `", ,}"`
the first pass removes only the final comma (the earlier comma is separated
from the closer by a comma-and-whitespace stretch the pattern cannot cross),
and the removal creates a fresh match that only a second pass rewrites:
`fix_json ", ,}" = ", }"` but `fix_json ", }" = " }"`. -/
theorem fix_json_not_idempotent :
    fix_json (fix_json ", ,\x7d") ≠ fix_json ", ,\x7d" := by decide

/-- Claim C6 (amended): `fix_json` is idempotent on every input containing no
match of either repair pattern — on such inputs it is the identity, so a
second application changes nothing. -/
theorem fix_json_idempotent_on_pattern_free (s : String)
    (h1 : hasTCMatch s.data = false) (h2 : hasMCMatch s.data = false) :
    fix_json (fix_json s) = fix_json s := by
  have h := fix_json_eq_of_pattern_free s h1 h2
  rw [h, h]

/-- Witness for the amended C6 on a concrete pattern-free input. -/
theorem fix_json_idempotent_on_pattern_free_witness :
    hasTCMatch ("\x7b\"a\": 1\x7d").data = false ∧
    hasMCMatch ("\x7b\"a\": 1\x7d").data = false ∧
    fix_json (fix_json "\x7b\"a\": 1\x7d") = fix_json "\x7b\"a\": 1\x7d" :=
  ⟨by decide, by decide,
   fix_json_idempotent_on_pattern_free _ (by decide) (by decide)⟩

/-- Claim C7: on any string containing no trailing-comma-before-closer
pattern and no closing-quote-whitespace-value colon-omission pattern,
`fix_json` returns its input unchanged.  (The claim's already-valid-JSON
hypothesis is not needed: pattern-freedom alone suffices, so in particular
every valid pattern-free JSON string round-trips.) -/
theorem fix_json_roundtrip (s : String)
    (h1 : hasTCMatch s.data = false) (h2 : hasMCMatch s.data = false) :
    fix_json s = s :=
  fix_json_eq_of_pattern_free s h1 h2

/-- Witness for C7 on a concrete valid JSON string without the patterns. -/
theorem fix_json_roundtrip_witness :
    hasTCMatch ("\x7b\"a\": [1, 2], \"b\": null\x7d").data = false ∧
    hasMCMatch ("\x7b\"a\": [1, 2], \"b\": null\x7d").data = false ∧
    fix_json "\x7b\"a\": [1, 2], \"b\": null\x7d" =
      "\x7b\"a\": [1, 2], \"b\": null\x7d" :=
  ⟨by decide, by decide, fix_json_roundtrip _ (by decide) (by decide)⟩

/-- Claim C8: a successful response whose Content-Type, truncated at the
first `;`, is one of the markup media types is rejected as absent with no
parse attempt: the outcome is the absence value for every body and every
parser, even a parser that would succeed on the body. -/
theorem get_nodeinfo_markup_never_parsed (loads : String → Option Json)
    (r : Response) (hok : r.ok = true) (ct : String)
    (hct : r.contentType = some ct)
    (hmt : mediaType ct ∈ markupTypes) :
    get_nodeinfo loads (some r) = .ok .null := by
  obtain ⟨ok, ctOpt, body⟩ := r
  simp only at hok hct
  subst hok
  subst hct
  simp only [get_nodeinfo, Bool.not_true]
  rw [if_neg (by simp), if_pos hmt]

/-- Witness for C8: a `text/html` response whose body is valid JSON and whose
parser would return a document is still reported absent. -/
theorem get_nodeinfo_markup_never_parsed_witness :
    (mediaType "text/html; charset=utf-8" ∈ markupTypes) ∧
    get_nodeinfo (fun _ => some (.bool true))
      (some ⟨true, some "text/html; charset=utf-8", "\x7b\x7d"⟩) = .ok .null :=
  ⟨by decide,
   get_nodeinfo_markup_never_parsed _ _ rfl _ rfl (by decide)⟩

/-- Claim C9: the three concrete repair examples of the specification:
`{"a": 1,}` and `{"a": 1,,,}` are repaired to `{"a": 1}`, and `{"a" 1}` is
repaired to `{"a":1}`. -/
theorem fix_json_spec_examples :
    fix_json "\x7b\"a\": 1,\x7d" = "\x7b\"a\": 1\x7d" ∧
    fix_json "\x7b\"a\": 1,,,\x7d" = "\x7b\"a\": 1\x7d" ∧
    fix_json "\x7b\"a\" 1\x7d" = "\x7b\"a\":1\x7d" :=
  ⟨by decide, by decide, by decide⟩

/-- Claim C10: a successful, non-markup response whose body is the document
`null` yields from the prober exactly the absence value that a failed fetch
yields, and the worker therefore produces the same `(node, null)` outcome
either way: a node legitimately publishing `null` is indistinguishable in the
database from a node with no usable document. -/
theorem get_nodeinfo_null_document_indistinguishable
    (loads : String → Option Json) (hl : loads "null" = some .null)
    (node : String) :
    get_nodeinfo loads (some ⟨true, some "application/json", "null"⟩) = .ok .null ∧
    get_nodeinfo loads none = .ok .null ∧
    get_nodeinfo_worker loads (some ⟨true, some "application/json", "null"⟩) node =
      get_nodeinfo_worker loads none node := by
  have hfix : fix_json "null" = "null" := by decide
  have hmem : mediaType "application/json" ∉ markupTypes := by decide
  have h1 : get_nodeinfo loads
      (some ⟨true, some "application/json", "null"⟩) = .ok .null := by
    simp only [get_nodeinfo, Bool.not_true]
    rw [if_neg (by simp), if_neg hmem, hfix, hl]
  refine ⟨h1, rfl, ?_⟩
  rw [get_nodeinfo_worker, get_nodeinfo_worker, h1]
  rfl

/-- Witness for C10 with a concrete parser mapping the body to `null`. -/
theorem get_nodeinfo_null_document_indistinguishable_witness :
    ((fun _ => some Json.null) "null" = some Json.null) ∧
    get_nodeinfo (fun _ => some Json.null)
      (some ⟨true, some "application/json", "null"⟩) = .ok .null ∧
    get_nodeinfo_worker (fun _ => some Json.null)
      (some ⟨true, some "application/json", "null"⟩) "fc00::1" =
      get_nodeinfo_worker (fun _ => some Json.null) none "fc00::1" :=
  ⟨rfl,
   (get_nodeinfo_null_document_indistinguishable _ rfl "fc00::1").1,
   (get_nodeinfo_null_document_indistinguishable _ rfl "fc00::1").2.2⟩
